import Mathlib

/-!
Shallow embedding of the core of the `ecommerce-analytics-platform`
repository (store-type detector, column mapper, data cleaner, analyzer)
and proofs about the frozen specification claims.

Modelling conventions, used throughout:

* Python floats are modelled as exact rationals (`ℚ`); all weights in the
  source (`0.5`, `0.35`, `0.7`, …) are exactly representable.
* A pandas cell is `Cell`: missing (`NaN`/`NaT`), a number, a string, or a
  datetime.  A pandas `DataFrame` is a row count plus a list of named,
  dtype-tagged columns.
* Python `dict`s become insertion-ordered association lists.
* `re.search` on the concrete regular expressions appearing in the source
  is embedded by `rxSearch` over a tiny pattern language (`Atom`): every
  pattern in the source is an alternation of sequences of literals,
  `\d+`, and `.?`.  For these patterns the greedy treatment of `\d+`
  (always followed by a non-digit literal or the end of the branch)
  coincides with Python's backtracking semantics.
* `datetime.now()` and the analyzer object's `self.results` attribute
  (read by `_analyze_sales_performance` before `analyze` assigns it) are
  ambient state; they are passed to the embedded `analyze` as explicit
  extra arguments `now : Date` and `prev : Option Nat` (`none` models a
  fresh analyzer whose `self.results` is `{}`, where the Python code
  raises `KeyError`).
-/

namespace Ecom

/-- Calendar date, as much of a pandas `Timestamp` as the analyzer
observes: an absolute day index (used for `normalize`/`nunique`, min/max
and day differences), the calendar month (`dt.month`), the weekday name
(`dt.day_name()`), and its `strftime` rendering. -/
structure Date where
  day : Nat
  month : Nat
  wd : String
  txt : String
deriving DecidableEq

/-- Column dtype, as far as the source inspects it (`dtype == 'object'`,
`is_datetime64_any_dtype`). -/
inductive Dtype where
  | obj
  | numeric
  | datetime
deriving DecidableEq

/-- One cell of a pandas column: missing (`NaN`/`NaT`), numeric, string,
or datetime. -/
inductive Cell where
  | na
  | num (q : ℚ)
  | str (s : String)
  | date (d : Date)
deriving DecidableEq

/-- A named pandas column with its dtype tag and cells. -/
structure Col where
  name : String
  dty : Dtype
  cells : List Cell
deriving DecidableEq

/-- A pandas DataFrame: a row count (`len(df)`) and named columns. -/
structure DataFrame where
  nrows : Nat
  cols : List Col
deriving DecidableEq

/-- A column mapping (canonical field ↦ column name), a Python dict in
insertion order. -/
abbrev Mapping := List (String × String)

/-! ## Kernel-computable rational arithmetic

The Batteries implementations of `Rat.add`/`mul`/`sub`/`inv` are
`@[irreducible]`, so concrete values built with them cannot be settled by
`decide`.  The embedding therefore uses the following wrappers, each
proved equal to the standard operation, so symbolic proofs can switch to
ordinary `ℚ` algebra while concrete runs still evaluate in the kernel. -/

/-- Kernel-computable `a + b` on `ℚ`. -/
def qAdd (a b : ℚ) : ℚ := mkRat (a.num * b.den + b.num * a.den) (a.den * b.den)

/-- Kernel-computable `a - b` on `ℚ`. -/
def qSub (a b : ℚ) : ℚ := mkRat (a.num * b.den - b.num * a.den) (a.den * b.den)

/-- Kernel-computable `a * b` on `ℚ`. -/
def qMul (a b : ℚ) : ℚ := mkRat (a.num * b.num) (a.den * b.den)

/-- Kernel-computable `a⁻¹` on `ℚ`. -/
def qInv (a : ℚ) : ℚ := Rat.divInt a.den a.num

/-- Kernel-computable `a / b` on `ℚ`. -/
def qDiv (a b : ℚ) : ℚ := qMul a (qInv b)

/-- Kernel-computable list sum on `ℚ`. -/
def qSum : List ℚ → ℚ
  | [] => 0
  | a :: l => qAdd a (qSum l)

theorem qAdd_eq (a b : ℚ) : qAdd a b = a + b := (Rat.add_def' a b).symm

theorem qSub_eq (a b : ℚ) : qSub a b = a - b := (Rat.sub_def' a b).symm

theorem qMul_eq (a b : ℚ) : qMul a b = a * b := by
  rw [qMul, Rat.mul_def, Rat.normalize_eq_mkRat]

theorem qInv_eq (a : ℚ) : qInv a = a⁻¹ := by
  rw [qInv, ← Rat.inv_def]; rfl

theorem qDiv_eq (a b : ℚ) : qDiv a b = a / b := by
  rw [qDiv, Rat.div_def, qMul_eq, qInv_eq]; rfl

theorem qSum_eq : ∀ l : List ℚ, qSum l = l.sum
  | [] => rfl
  | a :: l => by rw [qSum, qAdd_eq, qSum_eq l, List.sum_cons]

/-! ## Basic string and list machinery -/

/-- `startsWithL pat cs`: `pat` is a prefix of `cs` (character lists). -/
def startsWithL : List Char → List Char → Bool
  | [], _ => true
  | _ :: _, [] => false
  | a :: as, b :: bs => a == b && startsWithL as bs

/-- `subSearch pat cs`: `pat` occurs as a contiguous sublist of `cs`
(Python `pat in s` for strings). -/
def subSearch (pat : List Char) : List Char → Bool
  | [] => startsWithL pat []
  | c :: cs => startsWithL pat (c :: cs) || subSearch pat cs

/-- Python `sub in s` (substring containment). -/
def strHas (s sub : String) : Bool := subSearch sub.toList s.toList

/-- ASCII lower-casing of a string, Python `str.lower()` (identity on
non-ASCII characters such as Arabic, as in Python). -/
def pyLower (s : String) : String := ⟨s.toList.map Char.toLower⟩

/-- Atom of the embedded regular-expression language: a literal, `\d+`,
or `.?`. -/
inductive Atom where
  | lit (s : String)
  | digs
  | anyOpt

/-- Match a sequence of atoms at the start of a character list.  `\d+` is
consumed greedily; in every pattern of the source it is followed by a
non-digit literal (or ends the branch), where greedy matching agrees
with Python's backtracking. -/
def matchAtoms : List Atom → List Char → Bool
  | [], _ => true
  | .lit s :: rest, cs => startsWithL s.toList cs && matchAtoms rest (cs.drop s.toList.length)
  | .anyOpt :: rest, cs => matchAtoms rest cs || (!cs.isEmpty && matchAtoms rest cs.tail)
  | .digs :: rest, cs =>
      !(cs.takeWhile Char.isDigit).isEmpty && matchAtoms rest (cs.dropWhile Char.isDigit)

/-- `re.search` of an alternation of atom sequences: some branch matches
at some position of the string. -/
def searchFrom (brs : List (List Atom)) : List Char → Bool
  | [] => brs.any (matchAtoms · [])
  | c :: cs => brs.any (matchAtoms · (c :: cs)) || searchFrom brs cs

/-- `re.search(pattern, s)` for an embedded pattern. -/
def rxSearch (brs : List (List Atom)) (s : String) : Bool := searchFrom brs s.toList

/-- Distinct elements of a list, keeping first occurrences
(pandas `.unique()`), via an accumulator of elements already seen. -/
def uniqAux {α : Type} [DecidableEq α] : List α → List α → List α
  | [], _ => []
  | a :: as, seen => if a ∈ seen then uniqAux as seen else a :: uniqAux as (a :: seen)

/-- Distinct elements of a list, keeping first occurrences
(pandas `.unique()`). -/
def uniqList {α : Type} [DecidableEq α] (l : List α) : List α := uniqAux l []

/-- Association-list read, Python `d[k]` / `k in d` (keys are unique in
all dictionaries the source builds). -/
def aget (m : Mapping) (k : String) : Option String :=
  (m.find? (fun p => p.1 == k)).map (·.2)

/-- Python `k in d` for a mapping. -/
def hasKey (m : Mapping) (k : String) : Bool := m.any (fun p => p.1 == k)

/-! ## DataFrame primitives -/

/-- The column names of a DataFrame, in order. -/
def colNames (df : DataFrame) : List String := df.cols.map (·.name)

/-- Read a column's cells (`df[name]`).  Reading a missing column raises
in pandas; the embedding returns `[]` and theorems that depend on the
read carry the hypothesis that mapped columns exist. -/
def readCol (df : DataFrame) (name : String) : List Cell :=
  ((df.cols.find? (fun c => c.name == name)).map (·.cells)).getD []

/-- Write a column (`df[name] = cells`): overwrite in place if the name
exists, else append a new column (pandas assignment semantics). -/
def setCol (df : DataFrame) (name : String) (dty : Dtype) (cells : List Cell) : DataFrame :=
  if df.cols.any (fun c => c.name == name) then
    { df with cols := df.cols.map (fun c => if c.name == name then ⟨name, dty, cells⟩ else c) }
  else
    { df with cols := df.cols ++ [⟨name, dty, cells⟩] }

/-- `c.isNa`. -/
def Cell.isNa : Cell → Bool
  | .na => true
  | _ => false

/-- Numeric value of a cell for summation: pandas `sum` skips `NaN`; the
analyzer only sums columns it has coerced to numeric. -/
def cellNumOrZero : Cell → ℚ
  | .num q => q
  | _ => 0

/-- Datetime value of a cell of a coerced datetime column. -/
def cellDate : Cell → Option Date
  | .date d => some d
  | _ => none

/-- Python `str(x)` of a cell, as `astype(str)` produces it ("nan" for
missing values).  The numeric rendering is only a stand-in: no claim
evaluates it. -/
def cellPyStr : Cell → String
  | .na => "nan"
  | .num q => if q.den = 1 then toString q.num else toString q.num ++ "/" ++ toString q.den
  | .str s => s
  | .date d => d.txt

/-- Digits of a character list as a number (helper for parsers). -/
def digitsToNat (l : List Char) : Nat :=
  l.foldl (fun n c => n * 10 + (c.toNat - '0'.toNat)) 0

/-- The seven weekday names used by `dt.day_name()`. -/
def weekdayNames : List String :=
  ["Monday", "Tuesday", "Wednesday", "Thursday", "Friday", "Saturday", "Sunday"]

/-- Split a character list on a separator character (groups may be
empty, like `str.split`). -/
def splitOnChar (sep : Char) : List Char → List (List Char)
  | [] => [[]]
  | c :: cs =>
    match splitOnChar sep cs, c == sep with
    | r, true => [] :: r
    | [], false => [[c]]
    | g :: gs, false => (c :: g) :: gs

/-- `Modelled from the spec:` `pd.to_datetime` string parsing, restricted
to ISO `YYYY-MM-DD` strings — the only textual date format exercised by
the claims.  Any other string fails to parse (becomes `NaT` under
`errors='coerce'`).  The absolute day index `y*372 + m*31 + d` is
strictly monotone in (year, month, day), which is all the analyzer
observes of datetime ordering. -/
def parseDate (s : String) : Option Date :=
  match splitOnChar '-' s.toList with
  | [yl, ml, dl] =>
    if yl.length = 4 && yl.all Char.isDigit &&
       !ml.isEmpty && ml.length ≤ 2 && ml.all Char.isDigit &&
       !dl.isEmpty && dl.length ≤ 2 && dl.all Char.isDigit then
      let yn := digitsToNat yl; let mn := digitsToNat ml; let dn := digitsToNat dl
      if 1 ≤ mn && mn ≤ 12 && 1 ≤ dn && dn ≤ 31 then
        let idx := yn * 372 + mn * 31 + dn
        some ⟨idx, mn, weekdayNames.getD (idx % 7) "Monday", s⟩
      else none
    else none
  | _ => none

/-- `pd.to_numeric` string parsing, restricted to optionally-signed
decimal literals; anything else is unparseable (`NaN` under
`errors='coerce'`). -/
def parseNumCore (l : List Char) : Option ℚ :=
  match splitOnChar '.' l with
  | [ip] => if !ip.isEmpty && ip.all Char.isDigit then some (digitsToNat ip) else none
  | [ip, fp] =>
    if !ip.isEmpty && ip.all Char.isDigit && !fp.isEmpty && fp.all Char.isDigit then
      some (qDiv (digitsToNat ip * 10 ^ fp.length + digitsToNat fp : ℕ) ((10 : ℕ) ^ fp.length))
    else none
  | _ => none

/-- Optionally-signed decimal parsing (`pd.to_numeric` on a string). -/
def parseNum (s : String) : Option ℚ :=
  match s.toList with
  | '-' :: rest => (parseNumCore rest).map (fun q => qSub 0 q)
  | l => parseNumCore l

/-- A numeric cell stand-in for `pd.to_datetime` applied to a number
(pandas interprets numbers as epoch offsets; the parse always succeeds).
No claim observes the resulting date's fields. -/
def dateOfNum (q : ℚ) : Date := ⟨q.num.toNat, 1, "Monday", "epoch"⟩

/-- `pd.to_datetime(cell, errors='coerce')`. -/
def coerceDateCell : Cell → Cell
  | .na => .na
  | .num q => .date (dateOfNum q)
  | .str s => match parseDate s with
      | some d => .date d
      | none => .na
  | .date d => .date d

/-- `pd.to_numeric(cell, errors='coerce')` (datetimes are not produced by
any coerced column the analyzer sums). -/
def coerceNumCell : Cell → Cell
  | .na => .na
  | .num q => .num q
  | .str s => match parseNum s with
      | some q => .num q
      | none => .na
  | .date _ => .na

/-! ## Store-type detector (`src/modules/detector.py`) -/

/-- The patterns of one store category. -/
structure CatPat where
  colKws : List String
  valPats : List (List (List Atom))
  catKws : List String

/-- `StoreTypeDetector.STORE_PATTERNS`, in source order.  Note that
`general` is *not* a key of this dictionary. -/
def patternsList : List (String × CatPat) :=
  [ ("fashion",
      { colKws := ["size", "color", "variant", "dress", "shirt", "pants", "fashion", "clothing"]
        valPats := [ [[.lit "XS"], [.lit "S"], [.lit "M"], [.lit "L"], [.lit "XL"], [.lit "XXL"]]
                   , [[.lit "red"], [.lit "blue"], [.lit "green"], [.lit "black"], [.lit "white"]] ]
        catKws := ["clothing", "apparel", "wear", "fashion"] })
  , ("electronics",
      { colKws := ["model", "spec", "warranty", "tech", "gadget", "device"]
        valPats := [ [[.digs, .lit "GB"]], [[.digs, .lit "MP"]], [[.digs, .lit "\""]]
                   , [[.digs, .lit "GHz"]] ]
        catKws := ["electronics", "tech", "gadgets", "devices"] })
  , ("beauty",
      { colKws := ["skin", "type", "ml", "oz", "ingredient", "beauty", "cosmetic"]
        valPats := [ [[.digs, .lit "ml"]], [[.digs, .lit "oz"]]
                   , [[.lit "dry"], [.lit "oily"], [.lit "normal"], [.lit "combination"]] ]
        catKws := ["beauty", "cosmetics", "skincare", "makeup"] })
  , ("home_garden",
      { colKws := ["room", "size", "material", "dimension", "home", "garden"]
        valPats := [ [[.digs, .lit "x", .digs, .lit "x", .digs]]
                   , [[.lit "wood"], [.lit "metal"], [.lit "plastic"], [.lit "fabric"]] ]
        catKws := ["home", "garden", "furniture", "decor"] })
  , ("digital",
      { colKws := ["license", "download", "digital", "file", "format"]
        valPats := [ [[.lit "PDF"], [.lit "MP3"], [.lit "MP4"], [.lit "ZIP"]]
                   , [[.digs, .lit ".", .digs, .lit "MB"]], [[.digs, .lit ".", .digs, .lit "GB"]] ]
        catKws := ["digital", "download", "software", "ebook"] })
  , ("subscription",
      { colKws := ["subscription", "renewal", "plan", "monthly", "yearly"]
        valPats := [ [[.lit "monthly"], [.lit "yearly"], [.lit "quarterly"]]
                   , [[.lit "plan A"], [.lit "plan B"], [.lit "plan C"]] ]
        catKws := ["subscription", "membership", "plan"] })
  , ("handmade",
      { colKws := ["handmade", "craft", "artisan", "material", "unique"]
        valPats := [ [[.lit "handmade"], [.lit "handcrafted"]], [[.lit "limited edition"]] ]
        catKws := ["handmade", "craft", "artisan", "unique"] })
  , ("food",
      { colKws := ["expiry", "ingredient", "weight", "nutrition", "food"]
        valPats := [ [[.digs, .lit "g"]], [[.digs, .lit "kg"]], [[.digs, .lit "calories"]]
                   , [[.lit "organic"], [.lit "gluten-free"]] ]
        catKws := ["food", "beverage", "snack", "grocery"] })
  ]

/-- The categories actually scored by the detector (the keys of
`STORE_PATTERNS`). -/
def patternCats : List String := patternsList.map (·.1)

/-- The full store-category vocabulary of the data model. -/
def storeVocab : List String := patternCats ++ ["general"]

/-- Column-name scoring: +2 for each keyword of the category occurring in
some lower-cased column name. -/
def colKwScore (df : DataFrame) (cp : CatPat) : ℚ :=
  qMul 2 (cp.colKws.countP
        (fun kw => (df.cols.map (fun c => pyLower c.name)).any (fun n => strHas n kw)) : ℚ)

/-- Value-sample scoring of one object column's first 20 cells against one
category: each pattern contributes `matches * 0.5` when it matches at
least once. -/
def valColScore (cells : List Cell) (cp : CatPat) : ℚ :=
  qSum (cp.valPats.map (fun pat =>
    let mc := (cells.take 20).countP (fun cl => rxSearch pat (pyLower (cellPyStr cl)))
    if 0 < mc then qMul (mc : ℚ) (qDiv 1 2) else 0))

/-- Value-sample scoring over all object-typed columns. -/
def valScore (df : DataFrame) (cp : CatPat) : ℚ :=
  qSum (df.cols.map (fun c => if c.dty = .obj then valColScore c.cells cp else 0))

/-- Category-column scoring: the first lower-cased column name containing
"categor" or "type", if it is also literally a column of the frame,
contributes +3 per category keyword occurring in some distinct value. -/
def catColScore (df : DataFrame) (cp : CatPat) : ℚ :=
  match ((df.cols.map (fun c => pyLower c.name)).filter
          (fun n => strHas n "categor" || strHas n "type")).head? with
  | none => 0
  | some cn =>
    if (colNames df).contains cn then
      let cats := uniqList (((readCol df cn).filter (fun c => !c.isNa)).map
                            (fun c => pyLower (cellPyStr c)))
      qMul 3 (cp.catKws.countP (fun kw => cats.any (fun s => strHas s kw)) : ℚ)
    else 0

/-- Raw score of one category. -/
def scoreOf (df : DataFrame) (cp : CatPat) : ℚ :=
  qAdd (qAdd (colKwScore df cp) (valScore df cp)) (catColScore df cp)

/-- The raw score dictionary built by `StoreTypeDetector.detect`. -/
def rawScores (df : DataFrame) : List (String × ℚ) :=
  patternsList.map (fun p => (p.1, scoreOf df p.2))

/-- Python `max(items, key=lambda x: x[1])`: the first item with maximal
second component. -/
def pyMax : List (String × ℚ) → String × ℚ
  | [] => ("general", 0)
  | x :: xs => xs.foldl (fun acc p => if acc.2 < p.2 then p else acc) x

/-- `StoreTypeDetector.detect`: best category plus confidence map. -/
def detect (df : DataFrame) : String × List (String × ℚ) :=
  let scores := rawScores df
  if scores.all (fun p => p.2 = 0) then ("general", scores)
  else
    let total := qSum (scores.map (·.2))
    ((pyMax scores).1,
     scores.map (fun p => (p.1, if 0 < total then qMul (qDiv p.2 total) 100 else 0)))

/-! ## Column mapper (`src/modules/mapper.py`) -/

/-- Recognition data of one canonical field: regex patterns, keyword
substrings, and a priority weight. -/
structure FieldPat where
  pats : List (List Atom)
  kws : List String
  priority : Nat

/-- `EcommerceColumnMapper._initialize_patterns()`, in source order. -/
def fieldPatterns : List (String × FieldPat) :=
  [ ("transaction_id",
      { pats := [ [.lit "order", .anyOpt, .lit "id"], [.lit "transaction", .anyOpt, .lit "id"]
                , [.lit "invoice", .anyOpt, .lit "no"], [.lit "رقم", .anyOpt, .lit "الطلب"]
                , [.lit "معرف", .anyOpt, .lit "المعاملة"] ]
        kws := ["order", "transaction", "invoice", "رقم طلب", "id"]
        priority := 10 })
  , ("order_date",
      { pats := [ [.lit "order", .anyOpt, .lit "date"], [.lit "purchase", .anyOpt, .lit "date"]
                , [.lit "created", .anyOpt, .lit "at"], [.lit "تاريخ", .anyOpt, .lit "الطلب"]
                , [.lit "تاريخ", .anyOpt, .lit "الشراء"] ]
        kws := ["date", "created", "تاريخ", "وقت", "time"]
        priority := 9 })
  , ("customer_id",
      { pats := [ [.lit "customer", .anyOpt, .lit "id"], [.lit "user", .anyOpt, .lit "id"]
                , [.lit "client", .anyOpt, .lit "id"], [.lit "رقم", .anyOpt, .lit "العميل"]
                , [.lit "معرف", .anyOpt, .lit "المستخدم"] ]
        kws := ["customer", "user", "client", "عميل", "مستخدم"]
        priority := 8 })
  , ("customer_email",
      { pats := [ [.lit "email"], [.lit "customer", .anyOpt, .lit "email"]
                , [.lit "user", .anyOpt, .lit "email"], [.lit "بريد", .anyOpt, .lit "إلكتروني"]
                , [.lit "إيميل"] ]
        kws := ["email", "بريد", "إيميل"]
        priority := 7 })
  , ("product_id",
      { pats := [ [.lit "product", .anyOpt, .lit "id"], [.lit "item", .anyOpt, .lit "id"]
                , [.lit "sku"], [.lit "variant", .anyOpt, .lit "id"]
                , [.lit "معرف", .anyOpt, .lit "المنتج"] ]
        kws := ["product", "item", "sku", "variant", "منتج", "سلعة"]
        priority := 8 })
  , ("product_name",
      { pats := [ [.lit "product", .anyOpt, .lit "name"], [.lit "item", .anyOpt, .lit "name"]
                , [.lit "title"], [.lit "اسم", .anyOpt, .lit "المنتج"], [.lit "عنوان"] ]
        kws := ["product", "item", "title", "name", "اسم", "عنوان"]
        priority := 7 })
  , ("quantity",
      { pats := [ [.lit "quantity"], [.lit "qty"], [.lit "count"], [.lit "الكمية"], [.lit "عدد"] ]
        kws := ["quantity", "qty", "count", "كمية", "عدد"]
        priority := 6 })
  , ("unit_price",
      { pats := [ [.lit "unit", .anyOpt, .lit "price"], [.lit "price"], [.lit "cost"]
                , [.lit "سعر"], [.lit "السعر"], [.lit "التكلفة"] ]
        kws := ["price", "cost", "سعر", "تكلفة"]
        priority := 6 })
  , ("total_amount",
      { pats := [ [.lit "total"], [.lit "amount"], [.lit "revenue"], [.lit "المبلغ"]
                , [.lit "الإجمالي"] ]
        kws := ["total", "amount", "revenue", "إجمالي", "مبلغ"]
        priority := 9 })
  , ("payment_method",
      { pats := [ [.lit "payment", .anyOpt, .lit "method"], [.lit "payment", .anyOpt, .lit "type"]
                , [.lit "طريقة", .anyOpt, .lit "الدفع"], [.lit "نوع", .anyOpt, .lit "الدفع"] ]
        kws := ["payment", "دفع", "method", "طريقة"]
        priority := 5 })
  , ("shipping_address",
      { pats := [ [.lit "shipping", .anyOpt, .lit "address"]
                , [.lit "delivery", .anyOpt, .lit "address"]
                , [.lit "عنوان", .anyOpt, .lit "الشحن"], [.lit "عنوان", .anyOpt, .lit "التوصيل"] ]
        kws := ["shipping", "delivery", "address", "عنوان", "شحن"]
        priority := 4 })
  ]

/-- One entry of the `matches` list built by `auto_detect`. -/
structure MEntry where
  column : String
  fieldType : String
  score : Nat
deriving DecidableEq

/-- Score of one (lower-cased column name, field) pair: +3 if any regex
pattern matches (the source breaks after the first), +2 per keyword
substring hit. -/
def matchScore (colLower : String) (fp : FieldPat) : Nat :=
  (if fp.pats.any (fun pt => rxSearch [pt] colLower) then 3 else 0) +
  2 * fp.kws.countP (fun kw => strHas colLower kw)

/-- The `matches` record list of `auto_detect`, built column-major (outer
loop over columns, inner loop over fields), with the field priority added
whenever the raw score is positive. -/
def allMatches (df : DataFrame) : List MEntry :=
  df.cols.flatMap (fun c =>
    let cl := pyLower c.name
    fieldPatterns.filterMap (fun p =>
      let s := matchScore cl p.2
      if 0 < s then some ⟨c.name, p.1, s + p.2.priority⟩ else none))

/-- Stable insertion keeping descending score order: a later entry goes
after all existing entries of greater *or equal* score, exactly like
Python's stable `sort(..., reverse=True)`. -/
def insDesc (x : MEntry) : List MEntry → List MEntry
  | [] => [x]
  | y :: ys => if x.score ≤ y.score then y :: insDesc x ys else x :: y :: ys

/-- Stable descending sort by score. -/
def sortDesc (l : List MEntry) : List MEntry :=
  l.foldl (fun acc x => insDesc x acc) []

/-- The greedy assignment loop of `auto_detect`: accept a (column, field)
pair only when both are still unassigned. -/
def greedyAssign : List MEntry → List (String × String) → List String → List String →
    List (String × String)
  | [], sugg, _, _ => sugg
  | e :: rest, sugg, ac, af =>
    if e.column ∉ ac ∧ e.fieldType ∉ af then
      greedyAssign rest (sugg ++ [(e.fieldType, e.column)]) (e.column :: ac) (e.fieldType :: af)
    else greedyAssign rest sugg ac af

/-- The suggestions dictionary before the date post-pass. -/
def mainSuggestions (df : DataFrame) : Mapping :=
  greedyAssign (sortDesc (allMatches df)) [] [] []

/-- `pd.to_datetime` success of a single sampled cell, as
`_detect_date_columns` sees it (numbers parse as epoch offsets). -/
def cellDateParses : Cell → Bool
  | .na => false
  | .num _ => true
  | .str s => (parseDate s).isSome
  | .date _ => true

/-- `EcommerceColumnMapper._detect_date_columns`: datetime-typed columns,
plus columns whose first 10 non-null cells parse as dates for strictly
more than 70% of the sample. -/
def detectDateColumns (df : DataFrame) : List String :=
  df.cols.filterMap (fun c =>
    if c.dty = .datetime then some c.name
    else
      let sample := (c.cells.filter (fun cl => !cl.isNa)).take 10
      if 0 < sample.length ∧ 7 * sample.length < 10 * sample.countP cellDateParses then
        some c.name
      else none)

/-- `EcommerceColumnMapper.auto_detect`: greedy assignment followed by
the order_date post-pass, which assigns the first detected date column
when `order_date` has no column yet — without checking whether that
column is already assigned to another field. -/
def auto_detect (df : DataFrame) : Mapping :=
  let sugg := mainSuggestions df
  if hasKey sugg "order_date" then sugg
  else
    match detectDateColumns df with
    | [] => sugg
    | c :: _ => sugg ++ [("order_date", c)]

/-- Result of `validate_mapping`. -/
structure ValidationResult where
  valid : Bool
  errors : List String
  warnings : List String
  missingRequired : List String
deriving DecidableEq

/-- The required canonical fields of `validate_mapping`. -/
def requiredFields : List String := ["transaction_id", "order_date", "total_amount"]

/-- `pd.to_numeric(col, errors='raise')` succeeding on a cell. -/
def cellNumCoercible : Cell → Bool
  | .na => true
  | .num _ => true
  | .str s => (parseNum s).isSome
  | .date _ => false

/-- `EcommerceColumnMapper.validate_mapping`: invalid when a required
field is unmapped or a mapped column is absent from the frame; a
total_amount column that fails numeric coercion only contributes a
warning. -/
def validate_mapping (df : DataFrame) (m : Mapping) : ValidationResult :=
  let missing := requiredFields.filter (fun f => !hasKey m f)
  let bad := m.filter (fun p => !(colNames df).contains p.2)
  let warns :=
    match aget m "total_amount" with
    | some c =>
      if (colNames df).contains c ∧ ¬ (readCol df c).all cellNumCoercible then
        ["العمود " ++ c ++ " قد لا يحتوي على قيم رقمية"]
      else []
    | none => []
  { valid := missing.isEmpty && bad.isEmpty
    errors := bad.map (fun p => "العمود " ++ p.2 ++ " غير موجود في البيانات")
    warnings := warns
    missingRequired := missing }

/-! ## Analyzer data model (`src/modules/analyzer.py`)

The analysis result dictionary is embedded as nested structures; keys the
source only ever sets to constant empty dictionaries
(`revenue_breakdown`, `estimated_costs`, `financial_health`,
`stock_status`, `conversion_metrics`) are omitted.  Of `AnalysisConfig`
only `store_type` is observable in the result (`date_format` only feeds
`strftime`, which the embedding absorbs into `Date.txt`). -/

/-- The observable part of `AnalysisConfig`. -/
structure Config where
  storeType : String
deriving DecidableEq

/-- `store_profile.date_range`. -/
structure DateRange where
  startStr : String
  endStr : String
  days : ℤ
deriving DecidableEq

/-- `store_profile` (optional keys become `Option`). -/
structure StoreProfile where
  storeType : String
  analysisDate : String
  totalOrders : Nat
  dateRange : Option DateRange
  activeDays : Nat
  uniqueCustomers : Option Nat
  uniqueProducts : Option Nat
deriving DecidableEq

/-- `sales_performance`. -/
structure SalesPerformance where
  totalRevenue : ℚ
  averageOrderValue : ℚ
  ordersPerDay : ℚ
  revenuePerDay : ℚ
deriving DecidableEq

/-- `customer_analysis.customer_segments`. -/
structure CustomerSegments where
  vip : Nat
  highValue : Nat
  mediumValue : Nat
  lowValue : Nat
deriving DecidableEq

/-- `customer_analysis` (`customer_segments` stays `{}`, here `none`,
unless both customer_id and total_amount are mapped). -/
structure CustomerAnalysis where
  totalCustomers : Nat
  repeatCustomers : Nat
  repeatRate : ℚ
  customerSegments : Option CustomerSegments
deriving DecidableEq

/-- `product_analysis`. -/
structure ProductAnalysis where
  totalProducts : Nat
  topProducts : List (String × ℤ)
  categoryDistribution : List (Cell × Nat)
  productRecommendations : List String
deriving DecidableEq

/-- `financial_analysis.profitability`. -/
structure Profitability where
  totalRevenue : ℚ
  estimatedCogs : ℚ
  grossProfit : ℚ
  grossMargin : ℚ
  netProfitEstimate : ℚ
deriving DecidableEq

/-- `financial_analysis` (the other three keys are always empty). -/
structure FinancialAnalysis where
  profitability : Option Profitability
deriving DecidableEq

/-- `marketing_analysis`. -/
structure MarketingAnalysis where
  channels : List (Cell × Nat)
  marketingRecommendations : List String
deriving DecidableEq

/-- `inventory_analysis`. -/
structure InventoryAnalysis where
  turnoverEstimate : ℚ
  inventoryRecommendations : List String
deriving DecidableEq

/-- `seasonal_analysis`. -/
structure SeasonalAnalysis where
  monthlyTrends : List (ℚ × ℚ)
  weeklyPatterns : List (String × ℚ)
  peakPeriods : List ℚ
deriving DecidableEq

/-- One row of the `_get_benchmarks` table. -/
structure BenchmarkSet where
  aov : ℚ
  conversionRate : ℚ
  repeatRate : ℚ
  cartAbandonment : ℚ
deriving DecidableEq

/-- `_generate_recommendations` (static). -/
structure RecommendationSet where
  immediate : List String
  shortTerm : List String
  longTerm : List String
deriving DecidableEq

/-- `data_quality`. -/
structure DataQuality where
  completenessScore : ℤ
  accuracyScore : ℤ
  consistencyScore : ℤ
  overallScore : ℤ
  issues : List String
deriving DecidableEq

/-- The full `analyze` result dictionary. -/
structure AnalysisResult where
  storeProfile : StoreProfile
  salesPerformance : SalesPerformance
  customerAnalysis : CustomerAnalysis
  productAnalysis : ProductAnalysis
  financialAnalysis : FinancialAnalysis
  marketingAnalysis : MarketingAnalysis
  inventoryAnalysis : InventoryAnalysis
  seasonalAnalysis : SeasonalAnalysis
  benchmarks : BenchmarkSet
  recommendations : RecommendationSet
  dataQuality : DataQuality
deriving DecidableEq

/-! ## Analyzer helper computations -/

/-- Python `int(x)` on a rational: truncation toward zero. -/
def ratTrunc (q : ℚ) : ℤ :=
  if 0 ≤ q.num then ((q.num.toNat / q.den : Nat) : ℤ) else -(((-q.num).toNat / q.den : Nat) : ℤ)

/-- Count of distinct non-missing values (pandas `nunique`). -/
def nuniqueNonNa (cells : List Cell) : Nat :=
  (uniqList (cells.filter (fun c => !c.isNa))).length

/-- Lexicographic order on character lists. -/
def clLeB : List Char → List Char → Bool
  | [], _ => true
  | _ :: _, [] => false
  | a :: as, b :: bs => if a == b then clLeB as bs else decide (a < b)

/-- Rank of a cell constructor, to totalise the key order (pandas raises
on genuinely mixed-type sort keys; no claim exercises that path). -/
def cellRank : Cell → Nat
  | .na => 0
  | .num _ => 1
  | .str _ => 2
  | .date _ => 3

/-- Total order on cells used when pandas `groupby` sorts its keys. -/
def cellLeB (a b : Cell) : Bool :=
  match a, b with
  | .num x, .num y => decide (x ≤ y)
  | .str x, .str y => clLeB x.toList y.toList
  | .date x, .date y => decide (x.day ≤ y.day)
  | _, _ => decide (cellRank a ≤ cellRank b)

/-- Stable ascending insertion w.r.t. a boolean order. -/
def insAsc {α : Type} (le : α → α → Bool) (x : α) : List α → List α
  | [] => [x]
  | y :: ys => if le y x then y :: insAsc le x ys else x :: y :: ys

/-- Stable ascending insertion sort. -/
def sortAsc {α : Type} (le : α → α → Bool) (l : List α) : List α :=
  l.foldl (fun acc x => insAsc le x acc) []

/-- Stable descending insertion by a rational key: a later element is
placed after earlier elements of greater or equal key (pandas
`sort_values(ascending=False)` / `nlargest(keep='first')`; the source's
quicksort is deterministic as well, and no claim depends on its tie
order). -/
def insDescQ {α : Type} (key : α → ℚ) (x : α) : List α → List α
  | [] => [x]
  | y :: ys => if decide (key x ≤ key y) then y :: insDescQ key x ys else x :: y :: ys

/-- Stable descending sort by a rational key. -/
def sortDescQ {α : Type} (key : α → ℚ) (l : List α) : List α :=
  l.foldl (fun acc x => insDescQ key x acc) []

/-- `(row of c₁, row of c₂)` pairs over the frame's row indices. -/
def rowPairs (w : DataFrame) (c₁ c₂ : String) : List (Cell × Cell) :=
  (List.range w.nrows).map (fun i => ((readCol w c₁).getD i .na, (readCol w c₂).getD i .na))

/-- pandas `groupby(c₁)[c₂].sum()`: missing keys dropped, keys sorted
ascending, `NaN` summands skipped. -/
def groupSums (pairs : List (Cell × Cell)) : List (Cell × ℚ) :=
  (sortAsc cellLeB (uniqList ((pairs.map (·.1)).filter (fun c => !c.isNa)))).map
    (fun k => (k, qSum ((pairs.filter (fun p => decide (p.1 = k))).map
                          (fun p => cellNumOrZero p.2))))

/-- pandas `value_counts()` (drops missing, counts, sorts descending). -/
def valueCounts (cells : List Cell) : List (Cell × Nat) :=
  sortDescQ (fun p => (p.2 : ℚ))
    ((uniqList (cells.filter (fun c => !c.isNa))).map
      (fun v => (v, cells.countP (fun x => decide (x = v)))))

/-- pandas `Series.quantile(q)` with linear interpolation, on a
non-empty value list (the empty case yields `NaN` in pandas and is
branched on by the caller). -/
def quantileQ (vals : List ℚ) (q : ℚ) : ℚ :=
  let s := sortAsc (fun a b => decide (a ≤ b)) vals
  let n := s.length
  let h := qMul (qSub (n : ℚ) 1) q
  let i := (ratTrunc h).toNat
  let xi := s.getD i 0
  let xj := s.getD (i + 1) xi
  qAdd xi (qMul (qSub h (i : ℚ)) (qSub xj xi))

/-- `dt.month` as a numeric cell (`NaN` for `NaT`). -/
def cellMonth : Cell → Cell
  | .date d => .num (d.month : ℚ)
  | _ => .na

/-- `dt.day_name()` as a string cell (`NaN` for `NaT`). -/
def cellDayName : Cell → Cell
  | .date d => .str d.wd
  | _ => .na

/-! ## Analyzer sections -/

/-- The numeric fields coerced by `_clean_data`, in source order. -/
def numericFields : List String := ["quantity", "unit_price", "total_amount", "discount_amount"]

/-- `EcommerceAnalyzer._clean_data`: coerce the mapped order_date column
to datetime and each mapped numeric field to numeric (`errors='coerce'`).
It creates no new columns and does not touch the mapping. -/
def clean_data (df : DataFrame) (m : Mapping) : DataFrame :=
  let df₁ :=
    match aget m "order_date" with
    | some c => setCol df c .datetime ((readCol df c).map coerceDateCell)
    | none => df
  numericFields.foldl (fun d f =>
    match aget m f with
    | some c => setCol d c .numeric ((readCol d c).map coerceNumCell)
    | none => d) df₁

/-- `_analyze_store_profile`. -/
def storeProfileOf (w : DataFrame) (m : Mapping) (cfg : Config) (now : Date) : StoreProfile :=
  let dts :=
    match aget m "order_date" with
    | some dc => (readCol w dc).filterMap cellDate
    | none => []
  { storeType := cfg.storeType
    analysisDate := now.txt
    totalOrders := w.nrows
    dateRange :=
      match dts with
      | [] => none
      | d0 :: rest =>
        let mn := rest.foldl (fun a d => if d.day < a.day then d else a) d0
        let mx := rest.foldl (fun a d => if a.day < d.day then d else a) d0
        some ⟨mn.txt, mx.txt, (mx.day : ℤ) - (mn.day : ℤ)⟩
    activeDays := (uniqList (dts.map (·.day))).length
    uniqueCustomers := (aget m "customer_id").map (fun c => nuniqueNonNa (readCol w c))
    uniqueProducts := (aget m "product_id").map (fun c => nuniqueNonNa (readCol w c)) }

/-- `_analyze_sales_performance`.  The per-day branch reads
`self.results['store_profile']['active_days']`, i.e. the `results`
attribute as it was *before* `analyze` assigns it (the result dictionary
is fully evaluated before the assignment): `prev` is the previous run's
`active_days`, and `none` (a fresh analyzer, `self.results == {}`) makes
the Python code raise `KeyError`. -/
def salesPerformanceOf (w : DataFrame) (m : Mapping) (prev : Option Nat) :
    Except String SalesPerformance :=
  let revenue :=
    match aget m "total_amount" with
    | some c => qSum ((readCol w c).map cellNumOrZero)
    | none => 0
  let aov :=
    match aget m "total_amount" with
    | some _ => if 0 < w.nrows then qDiv revenue (w.nrows : ℚ) else 0
    | none => 0
  if (aget m "order_date").isSome ∧ 0 < revenue then
    match prev with
    | none => .error "KeyError: store_profile"
    | some activeDays =>
      .ok ⟨revenue, aov,
           if 0 < activeDays then qDiv (w.nrows : ℚ) (activeDays : ℚ) else 0,
           if 0 < activeDays then qDiv revenue (activeDays : ℚ) else 0⟩
  else .ok ⟨revenue, aov, 0, 0⟩

/-- `_analyze_customers`.  An empty per-customer revenue series makes
every quantile `NaN` in pandas, so every segment comparison is false and
all four counts are 0 — the `isEmpty` branch. -/
def customersOf (w : DataFrame) (m : Mapping) : CustomerAnalysis :=
  match aget m "customer_id" with
  | none => ⟨0, 0, 0, none⟩
  | some cc =>
    let cells := readCol w cc
    let distinct := uniqList (cells.filter (fun c => !c.isNa))
    let total := distinct.length
    let rep := distinct.countP (fun v => 1 < cells.countP (fun x => decide (x = v)))
    { totalCustomers := total
      repeatCustomers := rep
      repeatRate := if 0 < total then qMul (qDiv (rep : ℚ) (total : ℚ)) 100 else 0
      customerSegments :=
        match aget m "total_amount" with
        | none => none
        | some ac =>
          let vals := (groupSums (rowPairs w cc ac)).map (·.2)
          if vals.isEmpty then some ⟨0, 0, 0, 0⟩
          else
            let q90 := quantileQ vals (qDiv 9 10)
            let q70 := quantileQ vals (qDiv 7 10)
            let q40 := quantileQ vals (qDiv 4 10)
            some ⟨vals.countP (fun v => decide (q90 ≤ v)),
                  vals.countP (fun v => decide (q70 ≤ v) && decide (v < q90)),
                  vals.countP (fun v => decide (q40 ≤ v) && decide (v < q70)),
                  vals.countP (fun v => decide (v < q40))⟩ }

/-- `_get_product_recommendations` (static Arabic lists). -/
def prodRecsTable : List (String × List String) :=
  [ ("fashion",
      ["إضافة مجموعات متكاملة (Outfits)", "عرض المنتجات المتطابقة",
       "تحسين صور المنتجات بزوايا متعددة", "إضافة دليل المقاسات"])
  , ("electronics",
      ["إضافة مقارنة بين المنتجات", "عرض الملحقات الموصى بها",
       "تقديم دليل المستخدم الرقمي", "عرض المنتجات المتوافقة"])
  , ("beauty",
      ["إضافة دليل اختيار المنتجات حسب نوع البشرة", "عرض المنتجات المستخدمة معاً",
       "تقديم عينات تجريبية", "إضافة فيديو توضيحي للاستخدام"])
  , ("general",
      ["تحسين توصيف المنتجات", "إضافة مراجعات العملاء",
       "تحسين صور المنتجات", "إضافة أسئلة وأجوبة عن المنتجات"])
  ]

/-- Lookup with fallback to the `general` entry (`dict.get(k, general)`). -/
def recsLookup (tbl : List (String × List String)) (k : String) : List String :=
  ((tbl.find? (fun p => p.1 == k)).map (·.2)).getD
    (((tbl.find? (fun p => p.1 == "general")).map (·.2)).getD [])

/-- `_analyze_products`. -/
def productsOf (w : DataFrame) (m : Mapping) (cfg : Config) : ProductAnalysis :=
  { totalProducts :=
      match aget m "product_id" with
      | some pc => nuniqueNonNa (readCol w pc)
      | none => 0
    topProducts :=
      match aget m "product_name", aget m "quantity" with
      | some nc, some qc =>
        ((sortDescQ (·.2) (groupSums (rowPairs w nc qc))).take 10).map
          (fun p => (cellPyStr p.1, ratTrunc p.2))
      | _, _ => []
    categoryDistribution :=
      match aget m "product_category" with
      | some cc => (valueCounts (readCol w cc)).take 10
      | none => []
    productRecommendations := recsLookup prodRecsTable cfg.storeType }

/-- `_analyze_financials` cost-ratio table (floats as exact rationals). -/
def costRatioTable : List (String × ℚ) :=
  [ ("fashion", qDiv 35 100), ("electronics", qDiv 65 100), ("beauty", qDiv 30 100)
  , ("digital", qDiv 10 100), ("subscription", qDiv 40 100), ("handmade", qDiv 45 100)
  , ("food", qDiv 55 100), ("general", qDiv 50 100) ]

/-- `cost_ratios.get(store_type, 0.50)`. -/
def costRatioOf (s : String) : ℚ :=
  ((costRatioTable.find? (fun p => p.1 == s)).map (·.2)).getD (qDiv 50 100)

/-- `_analyze_financials`. -/
def financialsOf (w : DataFrame) (m : Mapping) (cfg : Config) : FinancialAnalysis :=
  match aget m "total_amount" with
  | none => ⟨none⟩
  | some c =>
    let rev := qSum ((readCol w c).map cellNumOrZero)
    let cogs := qMul rev (costRatioOf cfg.storeType)
    let gross := qSub rev cogs
    ⟨some ⟨rev, cogs, gross,
           if 0 < rev then qMul (qDiv gross rev) 100 else 0,
           qMul gross (qDiv 7 10)⟩⟩

/-- `_analyze_marketing` recommendation table. -/
def mktRecsTable : List (String × List String) :=
  [ ("fashion",
      ["استخدام Instagram Shopping", "تشغيل حملات Lookalike Audiences",
       "إنشاء محتوى فيديو للمنتجات", "التعاون مع المؤثرين في المجال"])
  , ("electronics",
      ["إنشاء محتوى تعليمي (Tutorials)", "استخدام Google Shopping Ads",
       "تقديم عروض الحزم (Bundles)", "إنشاء مقارنات بين المنتجات"])
  , ("general",
      ["تحسين SEO للمنتجات", "استخدام التسويق عبر البريد الإلكتروني",
       "تقديم عروض ترحيبية", "تحسين تجربة الموبايل"])
  ]

/-- `_analyze_marketing` (the only section that checks a mapped column's
existence before reading it). -/
def marketingOf (w : DataFrame) (m : Mapping) (cfg : Config) : MarketingAnalysis :=
  { channels :=
      match aget m "traffic_source" with
      | some sc =>
        if (colNames w).contains sc then (valueCounts (readCol w sc)).take 5 else []
      | none => []
    marketingRecommendations := recsLookup mktRecsTable cfg.storeType }

/-- `_analyze_inventory` turnover table. -/
def turnoverTable : List (String × ℚ) :=
  [ ("fashion", qDiv 45 10), ("electronics", qDiv 62 10), ("beauty", qDiv 38 10)
  , ("food", 12), ("general", 5) ]

/-- `_analyze_inventory`. -/
def inventoryOf (cfg : Config) : InventoryAnalysis :=
  { turnoverEstimate := ((turnoverTable.find? (fun p => p.1 == cfg.storeType)).map (·.2)).getD 5
    inventoryRecommendations :=
      ["تنفيذ نظام إدارة المخزون الآلي", "ضبط مستويات إعادة الطلب",
       "تحليل المنتجات بطيئة الحركة", "تنفيذ عروض التخليص للمخزون القديم"] }

/-- The two derived columns `_analyze_seasonality` writes onto
`self.dataframe` (only when both order_date and total_amount are
mapped): `month` then `day_of_week`. -/
def seasonApply (w : DataFrame) (m : Mapping) : DataFrame :=
  match aget m "order_date", aget m "total_amount" with
  | some dc, some _ =>
    let w₁ := setCol w "month" .numeric ((readCol w dc).map cellMonth)
    setCol w₁ "day_of_week" .obj ((readCol w₁ dc).map cellDayName)
  | _, _ => w

/-- `_analyze_seasonality`. -/
def seasonalOf (w : DataFrame) (m : Mapping) : SeasonalAnalysis :=
  match aget m "order_date", aget m "total_amount" with
  | some dc, some ac =>
    let w₁ := setCol w "month" .numeric ((readCol w dc).map cellMonth)
    let monthly := groupSums (rowPairs w₁ "month" ac)
    let w₂ := setCol w₁ "day_of_week" .obj ((readCol w₁ dc).map cellDayName)
    let weekly := groupSums (rowPairs w₂ "day_of_week" ac)
    { monthlyTrends := monthly.map (fun p => (cellNumOrZero p.1, p.2))
      weeklyPatterns := weekly.map (fun p => (cellPyStr p.1, p.2))
      peakPeriods := ((sortDescQ (·.2) monthly).take 3).map (fun p => cellNumOrZero p.1) }
  | _, _ => ⟨[], [], []⟩

/-- `_get_benchmarks` table (floats as exact rationals). -/
def benchmarksTable : List (String × BenchmarkSet) :=
  [ ("fashion", ⟨qDiv 8520 100, qDiv 18 10, qDiv 285 10, qDiv 688 10⟩)
  , ("electronics", ⟨qDiv 12050 100, qDiv 15 10, qDiv 223 10, qDiv 713 10⟩)
  , ("beauty", ⟨qDiv 4580 100, qDiv 21 10, qDiv 352 10, qDiv 674 10⟩)
  , ("general", ⟨qDiv 7500 100, qDiv 18 10, qDiv 250 10, qDiv 696 10⟩) ]

/-- `_get_benchmarks`. -/
def benchmarksOf (cfg : Config) : BenchmarkSet :=
  ((benchmarksTable.find? (fun p => p.1 == cfg.storeType)).map (·.2)).getD
    ⟨qDiv 7500 100, qDiv 18 10, qDiv 250 10, qDiv 696 10⟩

/-- `_generate_recommendations` (static). -/
def recommendationsFixed : RecommendationSet :=
  { immediate :=
      ["تحسين صفحة المنتج", "تحسين عملية الدفع",
       "إضافة مراجعات العملاء", "تحسين سرعة الموقع"]
    shortTerm :=
      ["زيادة معدل التحويل بنسبة 10%", "خفض معدل هجر عربة التسوق",
       "زيادة قيمة الطلب المتوسطة", "تحسين تجربة العملاء على الموبايل"]
    longTerm :=
      ["بناء برنامج ولاء للعملاء", "التوسع في قنوات بيع جديدة",
       "تنويع مصادر الإيرادات", "بناء علامة تجارية قوية"] }

/-- `_assess_data_quality` (runs after `_analyze_seasonality`, i.e. on
the working frame including any derived `month`/`day_of_week` columns). -/
def dataQualityOf (w : DataFrame) (m : Mapping) : DataQuality :=
  let totalCells := w.nrows * w.cols.length
  let missing := (w.cols.map (fun c => c.cells.countP Cell.isNa)).sum
  let completeness : ℚ :=
    if 0 < totalCells then qSub 1 (qDiv (missing : ℚ) (totalCells : ℚ)) else 0
  let cScore := ratTrunc (qMul completeness 100)
  { completenessScore := cScore
    accuracyScore := 0
    consistencyScore := 0
    overallScore := ratTrunc (qMul (cScore : ℚ) (qDiv 7 10))
    issues :=
      match aget m "total_amount" with
      | some ac =>
        let neg := (readCol w ac).countP (fun c =>
          match c with
          | .num q => decide (q < 0)
          | _ => false)
        if 0 < neg then ["يوجد " ++ toString neg ++ " معاملة بمبلغ سالب"] else []
      | none => [] }

/-- `EcommerceAnalyzer.analyze`, as a function of the table, the mapping,
the config, the ambient clock (`now`) and the previous run's stored
`active_days` (`prev`, see `salesPerformanceOf`).  The working copy is
cleaned first; a `KeyError` in the sales section aborts the run. -/
def analyze (df : DataFrame) (m : Mapping) (cfg : Config) (now : Date) (prev : Option Nat) :
    Except String AnalysisResult :=
  let w₁ := clean_data df m
  match salesPerformanceOf w₁ m prev with
  | .error e => .error e
  | .ok perf =>
    .ok { storeProfile := storeProfileOf w₁ m cfg now
          salesPerformance := perf
          customerAnalysis := customersOf w₁ m
          productAnalysis := productsOf w₁ m cfg
          financialAnalysis := financialsOf w₁ m cfg
          marketingAnalysis := marketingOf w₁ m cfg
          inventoryAnalysis := inventoryOf cfg
          seasonalAnalysis := seasonalOf w₁ m
          benchmarks := benchmarksOf cfg
          recommendations := recommendationsFixed
          dataQuality := dataQualityOf (seasonApply w₁ m) m }

/-- The empty frame (placeholder for out-of-range heap reads). -/
def dfEmpty : DataFrame := ⟨0, []⟩

/-- `analyze` with Python object mutation made explicit: the heap holds
the live DataFrames, `r` is the caller's reference.  `analyze` first
copies (`self.dataframe = dataframe.copy()`) — allocating a fresh slot —
then every mutation (`_clean_data` coercions, the seasonal `month` /
`day_of_week` column writes) hits only the copy's slot; the seasonal
write never happens when the sales section raises first. -/
def analyzeHeap (h : List DataFrame) (r : Nat) (m : Mapping) (cfg : Config) (now : Date)
    (prev : Option Nat) : List DataFrame × Except String AnalysisResult :=
  let df := h.getD r dfEmpty
  let wr := h.length
  let w₁ := clean_data df m
  let h₂ := (h ++ [df]).set wr w₁
  match salesPerformanceOf w₁ m prev with
  | .error e => (h₂, .error e)
  | .ok _ => (h₂.set wr (seasonApply w₁ m), analyze df m cfg now prev)

/-! ## Concrete fixtures used by counterexamples and witnesses -/

/-- Default configuration (`store_type='general'`). -/
def cfgGen : Config := ⟨"general"⟩

/-- Fashion-store configuration. -/
def cfgFashion : Config := ⟨"fashion"⟩

/-- A clock value. -/
def nowA : Date := ⟨739000, 1, "Monday", "2024-01-01"⟩

/-- A later clock value (different date). -/
def nowB : Date := ⟨739001, 1, "Tuesday", "2024-01-02"⟩

/-- The spec scenario table: a `size` column with values S, M, L and a
`color` column with values red, blue (red repeated to fill 3 rows). -/
def dfFashion : DataFrame :=
  ⟨3, [⟨"size", .obj, [.str "S", .str "M", .str "L"]⟩,
       ⟨"color", .obj, [.str "red", .str "blue", .str "red"]⟩]⟩

/-- A table with no store-type signal at all. -/
def dfNoSignal : DataFrame := ⟨1, [⟨"foo", .obj, [.str "bar"]⟩]⟩

/-- Two mapped numeric columns, no total_amount anywhere. -/
def dfProd : DataFrame :=
  ⟨2, [⟨"qty", .numeric, [.num 2, .num 4]⟩, ⟨"price", .numeric, [.num 3, .num 5]⟩]⟩

/-- quantity and unit_price mapped, total_amount absent. -/
def mProd : Mapping := [("quantity", "qty"), ("unit_price", "price")]

/-- A column whose name matches only transaction_id but whose values are
dates: the order_date post-pass will grab it although it is taken. -/
def dfInvoice : DataFrame :=
  ⟨3, [⟨"invoice_no", .obj, [.str "2024-01-05", .str "2024-02-06", .str "2024-03-07"]⟩]⟩

/-- A single `order_id` column with non-date values. -/
def dfOrderId : DataFrame := ⟨3, [⟨"order_id", .obj, [.str "a", .str "b", .str "c"]⟩]⟩

/-- An empty-but-valid table: three named columns, zero rows. -/
def dfZero : DataFrame :=
  ⟨0, [⟨"tid", .obj, []⟩, ⟨"dt", .obj, []⟩, ⟨"amt", .obj, []⟩]⟩

/-- A valid mapping for `dfZero` covering all required fields. -/
def mZero : Mapping := [("transaction_id", "tid"), ("order_date", "dt"), ("total_amount", "amt")]

/-- `dfZero`'s fashion-store mapping fixture for the financial witness. -/
def mAmt : Mapping := [("total_amount", "amt")]

/-- Injectivity of an association list in both coordinates. -/
def listInj (l : Mapping) : Prop := l.Pairwise (fun a b => a.1 ≠ b.1 ∧ a.2 ≠ b.2)

/-- The order_date post-pass is harmless: either it does not fire, or the
first detected date column is not yet assigned. -/
def postSafe (df : DataFrame) : Bool :=
  hasKey (mainSuggestions df) "order_date" ||
  (match detectDateColumns df with
   | [] => true
   | c :: _ => !(mainSuggestions df).any (fun p => p.2 == c))

/-- Scrub the clock-dependent field of an analysis outcome. -/
def eraseDate (e : Except String AnalysisResult) : Except String AnalysisResult :=
  e.map (fun r => { r with storeProfile := { r.storeProfile with analysisDate := "" } })

/-- `Except.ok`-ness as a boolean. -/
def exceptOk {ε α : Type} : Except ε α → Bool
  | .ok _ => true
  | .error _ => false

/-- Every column of the frame has no cells (a 0-row table). -/
def allEmpty (df : DataFrame) : Prop := ∀ c ∈ df.cols, c.cells = []

end Ecom

deriving instance DecidableEq for Except

namespace Ecom

/-! ## Claim C8 -/

/-- Claim C8: on a table with a `size` column valued S, M, L and a
`color` column valued red, blue, `detect` returns the category `fashion`,
and fashion's confidence score is strictly greater than every other
category's score in the returned confidence map. -/
theorem detect_fashion_scenario :
    (detect dfFashion).1 = "fashion" ∧
    ((detect dfFashion).2.all (fun p =>
      p.1 == "fashion" ||
      decide (p.2 < (((detect dfFashion).2.find? (fun q => q.1 == "fashion")).map
                      (·.2)).getD 0))) = true := by
  decide

/-! ## Claim C3 -/

/-- Claim C3 counterexample: on a table with no signal, `detect` returns
the category `general`, yet the returned confidence map has *no* entry
for `general` — the score dictionary is initialised from
`STORE_PATTERNS`, which does not contain `general`. -/
theorem detect_general_not_scored :
    (detect dfNoSignal).1 = "general" ∧
    "general" ∉ (detect dfNoSignal).2.map (·.1) := by
  constructor
  · decide
  · decide

/-! ## Claim C2 -/

/-- Claim C2 counterexample: on a table whose single column `invoice_no`
holds date-like strings, the auto-mapper assigns `invoice_no` to
`transaction_id` in the main pass and then *again* to `order_date` in the
date post-pass, so the returned mapping assigns one column to two
different fields — it is not injective. -/
theorem auto_detect_not_injective :
    auto_detect dfInvoice = [("transaction_id", "invoice_no"), ("order_date", "invoice_no")] ∧
    ¬ listInj (auto_detect dfInvoice) := by
  have h : auto_detect dfInvoice =
      [("transaction_id", "invoice_no"), ("order_date", "invoice_no")] := by decide
  refine ⟨h, fun hI => ?_⟩
  rw [h] at hI
  exact (List.rel_of_pairwise_cons hI (List.mem_singleton_self _)).2 rfl

/-! ## Mapper lemmas -/

theorem greedyAssign_inj :
    ∀ (l : List MEntry) (sugg : Mapping) (ac af : List String),
      (∀ p ∈ sugg, p.2 ∈ ac ∧ p.1 ∈ af) → listInj sugg →
      listInj (greedyAssign l sugg ac af) := by
  intro l
  induction l with
  | nil => intro sugg ac af _ hinj; exact hinj
  | cons e rest ih =>
    intro sugg ac af hsub hinj
    by_cases hc : e.column ∉ ac ∧ e.fieldType ∉ af
    · rw [greedyAssign, if_pos hc]
      apply ih
      · intro p hp
        rcases List.mem_append.mp hp with hp | hp
        · exact ⟨List.mem_cons_of_mem _ (hsub p hp).1, List.mem_cons_of_mem _ (hsub p hp).2⟩
        · have hp' : p = (e.fieldType, e.column) := by simpa using hp
          subst hp'
          exact ⟨List.mem_cons_self _ _, List.mem_cons_self _ _⟩
      · rw [listInj, List.pairwise_append]
        refine ⟨hinj, List.pairwise_singleton _ _, ?_⟩
        intro a ha b hb
        have hb' : b = (e.fieldType, e.column) := by simpa using hb
        subst hb'
        refine ⟨fun he => hc.2 ?_, fun he => hc.1 ?_⟩
        · have := (hsub a ha).2
          rw [he] at this
          exact this
        · have := (hsub a ha).1
          rw [he] at this
          exact this
    · rw [greedyAssign, if_neg hc]
      exact ih sugg ac af hsub hinj

theorem mainSuggestions_inj (df : DataFrame) : listInj (mainSuggestions df) :=
  greedyAssign_inj _ [] [] [] (by intro p hp; cases hp) List.Pairwise.nil

/-! ## Claim C2 (amended) -/

/-- Claim C2 amended: the greedy main pass of `auto_detect` yields an
injective mapping, and the order_date post-pass fires only when
`order_date` is unassigned; provided the post-pass does not fire or the
first detected date column is not already assigned (`postSafe`), the
returned mapping assigns no column to two fields and no field to two
columns. -/
theorem auto_detect_inj (df : DataFrame) (h : postSafe df = true) :
    listInj (auto_detect df) := by
  have hmain := mainSuggestions_inj df
  unfold auto_detect
  dsimp only
  by_cases hk : hasKey (mainSuggestions df) "order_date" = true
  · rw [if_pos hk]
    exact hmain
  · rw [if_neg hk]
    cases hdc : detectDateColumns df with
    | nil => exact hmain
    | cons c cs =>
      rw [listInj, List.pairwise_append]
      refine ⟨hmain, List.pairwise_singleton _ _, ?_⟩
      intro a ha b hb
      have hb' : b = ("order_date", c) := by simpa using hb
      subst hb'
      constructor
      · intro he
        apply hk
        rw [hasKey, List.any_eq_true]
        refine ⟨a, ha, ?_⟩
        rw [he]
        exact beq_self_eq_true _
      · intro he
        unfold postSafe at h
        rw [hdc] at h
        rw [Bool.or_eq_true] at h
        rcases h with h | h
        · exact hk h
        · rw [Bool.not_eq_true', List.any_eq_false] at h
          exact (h a ha) (by rw [he]; exact beq_self_eq_true _)

/-- Claim C2 witness instance: on a table with a single non-date
`order_id` column the post-pass proviso holds and the produced mapping is
injective. -/
theorem auto_detect_inj_witness :
    postSafe dfOrderId = true ∧ listInj (auto_detect dfOrderId) :=
  ⟨by decide, auto_detect_inj dfOrderId (by decide)⟩

/-! ## Claim C1 -/

/-- Claim C1 counterexample: with `unit_price` and `quantity` mapped and
`total_amount` unmapped, `_clean_data` creates no derived column (the
column set is unchanged) and the mapping still lacks `total_amount`, so
`sales_performance.total_revenue` is 0 — not the sum
`Σ unit_price * quantity = 26` the claim requires. -/
theorem clean_data_no_total_synthesis :
    aget mProd "total_amount" = none ∧
    colNames (clean_data dfProd mProd) = ["qty", "price"] ∧
    (analyze dfProd mProd cfgGen nowA none).toOption.map
      (fun r => r.salesPerformance.totalRevenue) = some 0 ∧
    qSum ((rowPairs dfProd "price" "qty").map
      (fun p => qMul (cellNumOrZero p.1) (cellNumOrZero p.2))) = 26 ∧
    (0 : ℚ) ≠ 26 := by
  refine ⟨by decide, by decide, by decide, by decide, by decide⟩

/-! ## Claim C7 -/

/-- Claim C7: `validate_mapping` marks the result invalid exactly when a
required field (`transaction_id`, `order_date`, `total_amount`) is
missing from the mapping or a mapped column is absent from the table;
the numeric-coercion check on total_amount feeds only the warning list,
which this characterisation does not mention. -/
theorem validate_mapping_valid_iff (df : DataFrame) (m : Mapping) :
    (validate_mapping df m).valid = true ↔
      ((∀ f ∈ requiredFields, hasKey m f = true) ∧ ∀ p ∈ m, p.2 ∈ colNames df) := by
  simp [validate_mapping, List.isEmpty_iff, List.filter_eq_nil_iff]

/-! ## Detector lemmas -/

theorem rawScores_keys (df : DataFrame) : (rawScores df).map (·.1) = patternCats := by
  simp [rawScores, patternCats, List.map_map]

theorem map_fst_pair (l : List (String × ℚ)) (f : String × ℚ → ℚ) :
    (l.map (fun p => (p.1, f p))).map (·.1) = l.map (·.1) := by
  induction l with
  | nil => rfl
  | cons a l ih => simp [ih]

theorem map_snd_pair (l : List (String × ℚ)) (f : String × ℚ → ℚ) :
    (l.map (fun p => (p.1, f p))).map (·.2) = l.map f := by
  induction l with
  | nil => rfl
  | cons a l ih => simp [ih]

theorem map_snd_comp (l : List (String × ℚ)) (g : ℚ → ℚ) :
    l.map (fun p => g p.2) = (l.map (·.2)).map g := by
  induction l with
  | nil => rfl
  | cons a l ih => simp [ih]

theorem detect_eq_zero (df : DataFrame)
    (hz : ((rawScores df).all fun p => decide (p.2 = 0)) = true) :
    detect df = ("general", rawScores df) := by
  unfold detect
  dsimp only
  rw [hz]
  simp

theorem detect_eq_pos (df : DataFrame)
    (hz : ((rawScores df).all fun p => decide (p.2 = 0)) = false) :
    detect df = ((pyMax (rawScores df)).1,
      (rawScores df).map (fun p => (p.1,
        if 0 < qSum ((rawScores df).map (·.2))
        then qMul (qDiv p.2 (qSum ((rawScores df).map (·.2)))) 100 else 0))) := by
  unfold detect
  dsimp only
  rw [hz]
  simp

theorem detect_keys_aux (df : DataFrame) : (detect df).2.map (·.1) = patternCats := by
  by_cases hb : ((rawScores df).all fun p => decide (p.2 = 0)) = true
  · rw [detect_eq_zero df hb]
    exact rawScores_keys df
  · rw [detect_eq_pos df (eq_false_of_ne_true hb)]
    rw [map_fst_pair]
    exact rawScores_keys df

theorem colKwScore_nonneg (df : DataFrame) (cp : CatPat) : 0 ≤ colKwScore df cp := by
  rw [colKwScore, qMul_eq]
  positivity

theorem valColScore_nonneg (cells : List Cell) (cp : CatPat) : 0 ≤ valColScore cells cp := by
  rw [valColScore, qSum_eq]
  apply List.sum_nonneg
  intro x hx
  simp only [List.mem_map] at hx
  obtain ⟨pat, _, rfl⟩ := hx
  split
  · rw [qMul_eq, qDiv_eq]
    positivity
  · exact le_refl 0

theorem valScore_nonneg (df : DataFrame) (cp : CatPat) : 0 ≤ valScore df cp := by
  rw [valScore, qSum_eq]
  apply List.sum_nonneg
  intro x hx
  simp only [List.mem_map] at hx
  obtain ⟨c, _, rfl⟩ := hx
  split
  · exact valColScore_nonneg _ _
  · exact le_refl 0

theorem catColScore_nonneg (df : DataFrame) (cp : CatPat) : 0 ≤ catColScore df cp := by
  unfold catColScore
  split
  · exact le_refl 0
  · split
    · rw [qMul_eq]
      positivity
    · exact le_refl 0

theorem scoreOf_nonneg (df : DataFrame) (cp : CatPat) : 0 ≤ scoreOf df cp := by
  rw [scoreOf, qAdd_eq, qAdd_eq]
  exact add_nonneg (add_nonneg (colKwScore_nonneg df cp) (valScore_nonneg df cp))
    (catColScore_nonneg df cp)

theorem foldlMax_mem :
    ∀ (xs : List (String × ℚ)) (x : String × ℚ),
      xs.foldl (fun acc p => if acc.2 < p.2 then p else acc) x ∈ x :: xs := by
  intro xs
  induction xs with
  | nil => intro x; simp
  | cons y ys ih =>
    intro x
    simp only [List.foldl_cons]
    rcases List.mem_cons.mp (ih (if x.2 < y.2 then y else x)) with h1 | h1
    · by_cases hxy : x.2 < y.2
      · rw [h1]
        simp [hxy]
      · rw [h1]
        simp [hxy]
    · exact List.mem_cons.mpr (Or.inr (List.mem_cons.mpr (Or.inr h1)))

theorem pyMax_mem (scores : List (String × ℚ)) (h : scores ≠ []) : pyMax scores ∈ scores := by
  cases scores with
  | nil => exact absurd rfl h
  | cons x xs => exact foldlMax_mem xs x

theorem sum_div_mul (l : List ℚ) (T : ℚ) :
    (l.map (fun x => x / T * 100)).sum = l.sum / T * 100 := by
  induction l with
  | nil => simp
  | cons a l ih => simp [ih, add_div, add_mul]

/-! ## Claim C3 (amended) -/

/-- Claim C3 amended: the confidence map returned by `detect` has exactly
the eight `STORE_PATTERNS` categories as keys — `general` is never among
them (it is only ever the returned *category*). -/
theorem detect_keys (df : DataFrame) :
    (detect df).2.map (·.1) = patternCats ∧ "general" ∉ (detect df).2.map (·.1) := by
  refine ⟨detect_keys_aux df, ?_⟩
  rw [detect_keys_aux df]
  decide

/-! ## Claim C5 -/

/-- Claim C5: `detect` always returns a category of the fixed vocabulary;
the confidence values sum to exactly 100, except when every raw score is
0, in which case the category is `general` and every confidence value is
0.  (Python floats are modelled as exact rationals.) -/
theorem detect_conf (df : DataFrame) :
    (detect df).1 ∈ storeVocab ∧
    (if ((rawScores df).all fun p => decide (p.2 = 0)) = true
     then (detect df).1 = "general" ∧ ((detect df).2.all fun p => decide (p.2 = 0)) = true
     else ((detect df).2.map (·.2)).sum = 100) := by
  by_cases hz : ((rawScores df).all fun p => decide (p.2 = 0)) = true
  · rw [if_pos hz, detect_eq_zero df hz]
    refine ⟨?_, rfl, hz⟩
    show "general" ∈ storeVocab
    decide
  · rw [if_neg hz]
    have hzf := eq_false_of_ne_true hz
    have hne : rawScores df ≠ [] := by
      simp [rawScores, patternsList]
    have hnn : ∀ q ∈ (rawScores df).map (·.2), 0 ≤ q := by
      intro q hq
      simp only [rawScores, List.map_map, List.mem_map] at hq
      obtain ⟨pr, _, rfl⟩ := hq
      exact scoreOf_nonneg df pr.2
    have hpos : 0 < qSum ((rawScores df).map (·.2)) := by
      rw [qSum_eq]
      obtain ⟨p, hp, hpne⟩ : ∃ p, p ∈ rawScores df ∧ ¬ p.2 = 0 := by
        simpa using hz
      have hple : p.2 ≤ ((rawScores df).map (·.2)).sum :=
        List.single_le_sum hnn _ (List.mem_map_of_mem _ hp)
      have h0 : 0 ≤ p.2 := hnn _ (List.mem_map_of_mem _ hp)
      have : 0 < p.2 := lt_of_le_of_ne h0 (Ne.symm hpne)
      linarith
    constructor
    · have hmem : pyMax (rawScores df) ∈ rawScores df := pyMax_mem _ hne
      have hfst : (pyMax (rawScores df)).1 ∈ (rawScores df).map (·.1) :=
        List.mem_map_of_mem _ hmem
      rw [rawScores_keys df] at hfst
      rw [detect_eq_pos df hzf]
      exact List.mem_append_left _ hfst
    · rw [detect_eq_pos df hzf]
      rw [map_snd_pair]
      simp only [if_pos hpos, qMul_eq, qDiv_eq]
      rw [map_snd_comp _ (fun x => x / qSum ((rawScores df).map (·.2)) * 100)]
      rw [sum_div_mul, ← qSum_eq]
      rw [div_self (ne_of_gt hpos)]
      norm_num

/-! ## Claim C4 -/

/-- Claim C4 counterexample: two runs of `analyze` on identical table,
mapping and store category, but at different wall-clock dates, return
different results (`store_profile.analysis_date` embeds
`datetime.now()`), refuting that `analyze` is a function of its three
inputs alone. -/
theorem analyze_depends_on_clock :
    analyze dfZero mZero cfgGen nowA none ≠ analyze dfZero mZero cfgGen nowB none := by
  decide

/-! ## Claim C4 (amended) -/

/-- Claim C4 amended: holding the ambient state fixed, `analyze` is a
deterministic function, and the clock influences nothing but
`store_profile.analysis_date`: scrubbing that one field makes any two
runs on the same table, mapping, category and stored results equal,
whatever the clock reads. -/
theorem analyze_clock_only (df : DataFrame) (m : Mapping) (cfg : Config) (prev : Option Nat)
    (now₁ now₂ : Date) :
    eraseDate (analyze df m cfg now₁ prev) = eraseDate (analyze df m cfg now₂ prev) := by
  unfold analyze
  dsimp only
  cases hs : salesPerformanceOf (clean_data df m) m prev with
  | error e => rfl
  | ok perf => simp [eraseDate, Except.map, storeProfileOf]

/-! ## Claim C9 -/

theorem aget_isSome_of_hasKey (m : Mapping) (k : String) (h : hasKey m k = true) :
    ∃ c, aget m k = some c := by
  rw [hasKey, List.any_eq_true] at h
  obtain ⟨p, hp, hpk⟩ := h
  rw [aget]
  cases hf : m.find? (fun q => q.1 == k) with
  | none =>
    rw [List.find?_eq_none] at hf
    exact absurd hpk (hf p hp)
  | some q => exact ⟨q.2, rfl⟩

/-- Claim C9: whenever `total_amount` is mapped, `analyze`'s financial
section satisfies the profitability equations — COGS = revenue times the
per-category cost ratio, gross profit = revenue − COGS, gross margin =
gross/revenue×100 guarded by revenue > 0, net estimate = gross×0.7 —
with cost ratio 0.35 for fashion, 0.65 for electronics, 0.50 for general
and 0.50 for any category outside the table. -/
theorem analyze_financials_spec (df : DataFrame) (m : Mapping) (cfg : Config) (now : Date)
    (prev : Option Nat) (hc : hasKey m "total_amount" = true) :
    (∀ r, analyze df m cfg now prev = .ok r →
        r.financialAnalysis = financialsOf (clean_data df m) m cfg) ∧
    (∃ p, (financialsOf (clean_data df m) m cfg).profitability = some p ∧
        p.estimatedCogs = p.totalRevenue * costRatioOf cfg.storeType ∧
        p.grossProfit = p.totalRevenue - p.estimatedCogs ∧
        p.grossMargin = (if 0 < p.totalRevenue then p.grossProfit / p.totalRevenue * 100 else 0) ∧
        p.netProfitEstimate = p.grossProfit * (7 / 10)) ∧
    costRatioOf "fashion" = 35 / 100 ∧ costRatioOf "electronics" = 65 / 100 ∧
    costRatioOf "general" = 50 / 100 ∧ costRatioOf "home_garden" = 50 / 100 ∧
    costRatioOf "unknown_vertical" = 50 / 100 := by
  obtain ⟨c, hc'⟩ := aget_isSome_of_hasKey m "total_amount" hc
  refine ⟨?_, ?_, ?_, ?_, ?_, ?_, ?_⟩
  · intro r hr
    unfold analyze at hr
    dsimp only at hr
    split at hr
    · cases hr
    · cases hr
      rfl
  · unfold financialsOf
    rw [hc']
    dsimp only
    refine ⟨_, rfl, ?_, ?_, ?_, ?_⟩ <;> simp [qMul_eq, qSub_eq, qDiv_eq]
  · rw [← qDiv_eq]; decide
  · rw [← qDiv_eq]; decide
  · rw [← qDiv_eq]; decide
  · rw [← qDiv_eq]; decide
  · rw [← qDiv_eq]; decide

/-! ## Empty-table lemmas (Claim C6) -/

theorem setCol_nrows (df : DataFrame) (n : String) (t : Dtype) (cells : List Cell) :
    (setCol df n t cells).nrows = df.nrows := by
  unfold setCol
  split <;> rfl

theorem setCol_allEmpty {df : DataFrame} {n : String} {t : Dtype} {cells : List Cell}
    (h : allEmpty df) (hc : cells = []) : allEmpty (setCol df n t cells) := by
  unfold setCol
  split
  · intro c hcm
    simp only [List.mem_map] at hcm
    obtain ⟨c0, hc0, rfl⟩ := hcm
    by_cases hn : (c0.name == n) = true
    · simp [hn, hc]
    · simp only [hn, if_false]
      exact h c0 hc0
  · intro c hcm
    rcases List.mem_append.mp hcm with hm | hm
    · exact h c hm
    · have hc' : c = ⟨n, t, cells⟩ := by simpa using hm
      rw [hc', hc]

theorem readCol_allEmpty {df : DataFrame} (h : allEmpty df) (n : String) :
    readCol df n = [] := by
  unfold readCol
  cases hf : df.cols.find? (fun c => c.name == n) with
  | none => rfl
  | some c =>
    have hmem := List.mem_of_find?_eq_some hf
    simp [h c hmem]

theorem cleanFold_allEmpty (m : Mapping) :
    ∀ (fs : List String) (d : DataFrame), allEmpty d →
      allEmpty (fs.foldl (fun d f =>
        match aget m f with
        | some c => setCol d c .numeric ((readCol d c).map coerceNumCell)
        | none => d) d) := by
  intro fs
  induction fs with
  | nil => intro d hd; exact hd
  | cons f rest ih =>
    intro d hd
    rw [List.foldl_cons]
    apply ih
    cases aget m f with
    | none => exact hd
    | some c => exact setCol_allEmpty hd (by rw [readCol_allEmpty hd]; rfl)

theorem cleanFold_nrows (m : Mapping) :
    ∀ (fs : List String) (d : DataFrame),
      (fs.foldl (fun d f =>
        match aget m f with
        | some c => setCol d c .numeric ((readCol d c).map coerceNumCell)
        | none => d) d).nrows = d.nrows := by
  intro fs
  induction fs with
  | nil => intro d; rfl
  | cons f rest ih =>
    intro d
    rw [List.foldl_cons, ih]
    cases aget m f with
    | none => rfl
    | some c => exact setCol_nrows d c .numeric _

theorem clean_data_allEmpty {df : DataFrame} {m : Mapping} (h : allEmpty df) :
    allEmpty (clean_data df m) := by
  unfold clean_data
  dsimp only
  apply cleanFold_allEmpty
  cases aget m "order_date" with
  | none => exact h
  | some c => exact setCol_allEmpty h (by rw [readCol_allEmpty h]; rfl)

theorem clean_data_nrows (df : DataFrame) (m : Mapping) :
    (clean_data df m).nrows = df.nrows := by
  unfold clean_data
  dsimp only
  rw [cleanFold_nrows]
  cases aget m "order_date" with
  | none => rfl
  | some c => exact setCol_nrows df c .datetime _

theorem seasonApply_allEmpty {w : DataFrame} {m : Mapping} (h : allEmpty w) :
    allEmpty (seasonApply w m) := by
  unfold seasonApply
  split
  · apply setCol_allEmpty
    · exact setCol_allEmpty h (by rw [readCol_allEmpty h]; rfl)
    · rw [readCol_allEmpty (setCol_allEmpty h (by rw [readCol_allEmpty h]; rfl))]
      rfl
  · exact h

theorem seasonApply_nrows (w : DataFrame) (m : Mapping) :
    (seasonApply w m).nrows = w.nrows := by
  unfold seasonApply
  split
  · rw [setCol_nrows, setCol_nrows]
  · rfl

theorem sales_empty {w : DataFrame} {m : Mapping} {prev : Option Nat}
    (hE : allEmpty w) (hn : w.nrows = 0) :
    salesPerformanceOf w m prev = .ok ⟨0, 0, 0, 0⟩ := by
  unfold salesPerformanceOf
  dsimp only
  rcases hta : aget m "total_amount" with _ | c <;>
    simp [hta, readCol_allEmpty hE, qSum, hn]

theorem customers_empty {w : DataFrame} {m : Mapping} (hE : allEmpty w) :
    (customersOf w m).repeatRate = 0 := by
  unfold customersOf
  rcases hcc : aget m "customer_id" with _ | cc
  · rfl
  · simp [readCol_allEmpty hE, uniqList, uniqAux]

theorem financials_empty {w : DataFrame} {m : Mapping} {cfg : Config} (hE : allEmpty w) :
    (financialsOf w m cfg).profitability =
      (if (aget m "total_amount").isSome then some ⟨0, 0, 0, 0, 0⟩ else none) := by
  unfold financialsOf
  rcases hta : aget m "total_amount" with _ | c <;>
    simp [hta, readCol_allEmpty hE, qSum, qMul_eq, qSub_eq, qDiv_eq]

theorem quality_empty {w : DataFrame} {m : Mapping} (hn : w.nrows = 0) :
    (dataQualityOf w m).completenessScore = 0 ∧ (dataQualityOf w m).overallScore = 0 := by
  have hrt : ratTrunc (qMul 0 100) = 0 := by decide
  have hrt2 : ratTrunc (qMul (((0 : ℤ) : ℚ)) (qDiv 7 10)) = 0 := by decide
  have hrt3 : ratTrunc (qMul 0 (qDiv 7 10)) = 0 := by decide
  unfold dataQualityOf
  dsimp only
  rw [hn]
  simp [hrt, hrt2, hrt3]

/-! ## Column-set preservation lemmas (Claim C1) -/

theorem setCol_names_of_mem {df : DataFrame} {n : String} {t : Dtype} {cells : List Cell}
    (h : n ∈ colNames df) : colNames (setCol df n t cells) = colNames df := by
  unfold setCol
  have hany : (df.cols.any (fun c => c.name == n)) = true := by
    rw [List.any_eq_true]
    obtain ⟨c, hc, rfl⟩ := List.mem_map.mp h
    exact ⟨c, hc, beq_self_eq_true _⟩
  rw [if_pos hany]
  unfold colNames
  dsimp only
  rw [List.map_map]
  apply List.map_congr_left
  intro c _
  by_cases hb : (c.name == n) = true
  · simp only [Function.comp, hb, if_true]
    exact (eq_of_beq hb).symm
  · simp [Function.comp, eq_false_of_ne_true hb]

theorem aget_mem_names {df : DataFrame} {m : Mapping}
    (hm : ∀ p ∈ m, p.2 ∈ colNames df) {k c : String} (h : aget m k = some c) :
    c ∈ colNames df := by
  rw [aget] at h
  cases hf : m.find? (fun q => q.1 == k) with
  | none => rw [hf] at h; cases h
  | some q =>
    rw [hf] at h
    injection h with h2
    rw [← h2]
    exact hm q (List.mem_of_find?_eq_some hf)

theorem cleanFold_names (m : Mapping) :
    ∀ (fs : List String) (d : DataFrame), (∀ p ∈ m, p.2 ∈ colNames d) →
      colNames (fs.foldl (fun d f =>
        match aget m f with
        | some c => setCol d c .numeric ((readCol d c).map coerceNumCell)
        | none => d) d) = colNames d := by
  intro fs
  induction fs with
  | nil => intro d _; rfl
  | cons f rest ih =>
    intro d hd
    rw [List.foldl_cons]
    have hstep : colNames (match aget m f with
        | some c => setCol d c .numeric ((readCol d c).map coerceNumCell)
        | none => d) = colNames d := by
      cases hf : aget m f with
      | none => rfl
      | some c => exact setCol_names_of_mem (aget_mem_names hd hf)
    rw [ih _ (by rw [hstep]; exact hd), hstep]

theorem clean_data_names {df : DataFrame} {m : Mapping}
    (hm : ∀ p ∈ m, p.2 ∈ colNames df) : colNames (clean_data df m) = colNames df := by
  unfold clean_data
  dsimp only
  have h1 : colNames (match aget m "order_date" with
      | some c => setCol df c .datetime ((readCol df c).map coerceDateCell)
      | none => df) = colNames df := by
    cases hf : aget m "order_date" with
    | none => rfl
    | some c => exact setCol_names_of_mem (aget_mem_names hm hf)
  rw [cleanFold_names m _ _ (by rw [h1]; exact hm), h1]

theorem sales_no_total {w : DataFrame} {m : Mapping} {prev : Option Nat}
    (h : aget m "total_amount" = none) :
    salesPerformanceOf w m prev = .ok ⟨0, 0, 0, 0⟩ := by
  unfold salesPerformanceOf
  dsimp only
  rw [h]
  simp

/-! ## Claim C1 (amended) -/

/-- Claim C1 amended: when `total_amount` is absent from the mapping, the
cleaning step only coerces already-mapped columns — the cleaned table has
exactly the caller's column set, no derived product column exists and the
mapping is left without `total_amount` — and consequently
`sales_performance.total_revenue` and `average_order_value` are 0, even
when `unit_price` and `quantity` are mapped. -/
theorem clean_data_only_coerces (df : DataFrame) (m : Mapping) (cfg : Config) (now : Date)
    (prev : Option Nat) (hnt : aget m "total_amount" = none)
    (hm : ∀ p ∈ m, p.2 ∈ colNames df) :
    colNames (clean_data df m) = colNames df ∧
    ∀ r, analyze df m cfg now prev = .ok r →
      r.salesPerformance.totalRevenue = 0 ∧ r.salesPerformance.averageOrderValue = 0 := by
  refine ⟨clean_data_names hm, ?_⟩
  intro r hr
  unfold analyze at hr
  dsimp only at hr
  rw [sales_no_total hnt] at hr
  cases hr
  exact ⟨rfl, rfl⟩

/-- Claim C1 amended witness: the quantity/price table. -/
theorem clean_data_only_coerces_witness :
    aget mProd "total_amount" = none ∧
    colNames (clean_data dfProd mProd) = colNames dfProd ∧
    ∀ r, analyze dfProd mProd cfgGen nowA none = .ok r →
      r.salesPerformance.totalRevenue = 0 ∧ r.salesPerformance.averageOrderValue = 0 :=
  ⟨by decide,
   (clean_data_only_coerces dfProd mProd cfgGen nowA none (by decide) (by decide)).1,
   (clean_data_only_coerces dfProd mProd cfgGen nowA none (by decide) (by decide)).2⟩

/-! ## Claim C6 -/

/-- Claim C6: on a zero-row table with a valid mapping, `analyze` returns
normally with all division-guarded numeric fields equal to 0
(total_revenue, average_order_value, per-day rates, repeat rate,
completeness and overall quality scores, and — when total_amount is
mapped — an all-zero profitability block): every division is guarded in
the source, so nothing raises and no `NaN` can appear (the embedding's
arithmetic is total on `ℚ`). -/
theorem analyze_empty_table (df : DataFrame) (m : Mapping) (cfg : Config) (now : Date)
    (prev : Option Nat) (h0 : df.nrows = 0) (hE : ∀ c ∈ df.cols, c.cells = [])
    (_hm : ∀ p ∈ m, p.2 ∈ colNames df) :
    ∃ r, analyze df m cfg now prev = .ok r ∧
      r.salesPerformance = ⟨0, 0, 0, 0⟩ ∧
      r.customerAnalysis.repeatRate = 0 ∧
      r.dataQuality.completenessScore = 0 ∧
      r.dataQuality.overallScore = 0 ∧
      r.financialAnalysis.profitability =
        (if (aget m "total_amount").isSome then some ⟨0, 0, 0, 0, 0⟩ else none) := by
  have hW : allEmpty (clean_data df m) := clean_data_allEmpty hE
  have hWn : (clean_data df m).nrows = 0 := by rw [clean_data_nrows]; exact h0
  have hS : salesPerformanceOf (clean_data df m) m prev = .ok ⟨0, 0, 0, 0⟩ :=
    sales_empty hW hWn
  have hQn : (seasonApply (clean_data df m) m).nrows = 0 := by
    rw [seasonApply_nrows]; exact hWn
  have hA : analyze df m cfg now prev = .ok
      { storeProfile := storeProfileOf (clean_data df m) m cfg now
        salesPerformance := ⟨0, 0, 0, 0⟩
        customerAnalysis := customersOf (clean_data df m) m
        productAnalysis := productsOf (clean_data df m) m cfg
        financialAnalysis := financialsOf (clean_data df m) m cfg
        marketingAnalysis := marketingOf (clean_data df m) m cfg
        inventoryAnalysis := inventoryOf cfg
        seasonalAnalysis := seasonalOf (clean_data df m) m
        benchmarks := benchmarksOf cfg
        recommendations := recommendationsFixed
        dataQuality := dataQualityOf (seasonApply (clean_data df m) m) m } := by
    unfold analyze
    dsimp only
    rw [hS]
  exact ⟨_, hA, rfl, customers_empty hW, (quality_empty hQn).1, (quality_empty hQn).2,
    financials_empty hW⟩

/-- Claim C6 witness: the empty three-column table with its full valid
mapping. -/
theorem analyze_empty_table_witness :
    ∃ r, analyze dfZero mZero cfgGen nowA none = .ok r ∧
      r.salesPerformance = ⟨0, 0, 0, 0⟩ ∧
      r.customerAnalysis.repeatRate = 0 ∧
      r.dataQuality.completenessScore = 0 ∧
      r.dataQuality.overallScore = 0 ∧
      r.financialAnalysis.profitability =
        (if (aget mZero "total_amount").isSome then some ⟨0, 0, 0, 0, 0⟩ else none) :=
  analyze_empty_table dfZero mZero cfgGen nowA none (by decide) (by decide) (by decide)

/-! ## Heap lemmas (Claim C10) -/

theorem setCol_mem_self (df : DataFrame) (n : String) (t : Dtype) (cells : List Cell) :
    n ∈ colNames (setCol df n t cells) := by
  unfold setCol
  split
  · next hany =>
    rw [List.any_eq_true] at hany
    obtain ⟨c, hc, hbeq⟩ := hany
    unfold colNames
    dsimp only
    rw [List.map_map]
    exact List.mem_map.mpr ⟨c, hc, by simp [eq_of_beq hbeq]⟩
  · unfold colNames
    dsimp only
    rw [List.map_append]
    exact List.mem_append_right _ (by simp)

theorem setCol_mem_of {df : DataFrame} {x : String} (n : String) (t : Dtype)
    (cells : List Cell) (hx : x ∈ colNames df) : x ∈ colNames (setCol df n t cells) := by
  unfold setCol
  split
  · obtain ⟨c, hc, rfl⟩ := List.mem_map.mp hx
    unfold colNames
    dsimp only
    rw [List.map_map]
    refine List.mem_map.mpr ⟨c, hc, ?_⟩
    by_cases hb : c.name = n
    · simp [hb]
    · simp [hb]
  · unfold colNames
    dsimp only
    rw [List.map_append]
    exact List.mem_append_left _ hx

theorem seasonApply_cols {w : DataFrame} {m : Mapping}
    (h1 : (aget m "order_date").isSome = true) (h2 : (aget m "total_amount").isSome = true) :
    "month" ∈ colNames (seasonApply w m) ∧ "day_of_week" ∈ colNames (seasonApply w m) := by
  obtain ⟨dc, hdc⟩ := Option.isSome_iff_exists.mp h1
  obtain ⟨ac, hac⟩ := Option.isSome_iff_exists.mp h2
  unfold seasonApply
  rw [hdc, hac]
  dsimp only
  constructor
  · exact setCol_mem_of _ _ _ (setCol_mem_self _ _ _ _)
  · exact setCol_mem_self _ _ _ _

/-! ## Claim C10 -/

/-- Claim C10: `analyze` never touches the caller's DataFrame — it
operates on a copy allocated on entry, so after the call the caller's
heap slot is unchanged; moreover, when both order_date and total_amount
are mapped (and the sales section does not raise), the derived `month`
and `day_of_week` columns appear on the copy's slot only. -/
theorem analyze_frame (h : List DataFrame) (r : Nat) (m : Mapping) (cfg : Config) (now : Date)
    (prev : Option Nat) (hr : r < h.length) :
    (analyzeHeap h r m cfg now prev).1.get? r = h.get? r ∧
    ∀ w, (analyzeHeap h r m cfg now prev).1.get? h.length = some w →
      exceptOk (salesPerformanceOf (clean_data (h.getD r dfEmpty) m) m prev) = true →
      (aget m "order_date").isSome = true → (aget m "total_amount").isSome = true →
        "month" ∈ colNames w ∧ "day_of_week" ∈ colNames w := by
  have hne : h.length ≠ r := Nat.ne_of_gt hr
  unfold analyzeHeap
  dsimp only
  cases hs : salesPerformanceOf (clean_data (h.getD r dfEmpty) m) m prev with
  | error e =>
    constructor
    · simp only [List.get?_eq_getElem?, List.getElem?_set_ne hne]
      simp [List.getElem?_append, hr]
    · intro w _ hok
      rw [exceptOk] at hok
      cases hok
  | ok perf =>
    constructor
    · simp only [List.get?_eq_getElem?, List.getElem?_set_ne hne]
      simp [List.getElem?_append, hr]
    · intro w hw _ h1 h2
      have hlt : h.length < ((h ++ [h.getD r dfEmpty]).set h.length
          (clean_data (h.getD r dfEmpty) m)).length := by
        rw [List.length_set, List.length_append]
        simp
      rw [List.get?_eq_getElem?, List.getElem?_set_self hlt] at hw
      injection hw with hw
      rw [← hw]
      exact seasonApply_cols h1 h2

/-- Claim C10 witness: singleton heap holding the empty valid table. -/
theorem analyze_frame_witness :
    (analyzeHeap [dfZero] 0 mZero cfgGen nowA none).1.get? 0 = [dfZero].get? 0 ∧
    ("month" ∈ colNames (seasonApply (clean_data dfZero mZero) mZero) ∧
     "day_of_week" ∈ colNames (seasonApply (clean_data dfZero mZero) mZero)) :=
  ⟨(analyze_frame [dfZero] 0 mZero cfgGen nowA none (by decide)).1,
   (analyze_frame [dfZero] 0 mZero cfgGen nowA none (by decide)).2
     (seasonApply (clean_data dfZero mZero) mZero) (by decide) (by decide) (by decide)
     (by decide)⟩

/-- Claim C9 witness: concrete instantiation (empty fashion-store table
with `total_amount ↦ amt`). -/
theorem analyze_financials_spec_witness :
    hasKey mAmt "total_amount" = true ∧
    ∃ p, (financialsOf (clean_data dfZero mAmt) mAmt cfgFashion).profitability = some p ∧
        p.estimatedCogs = p.totalRevenue * costRatioOf cfgFashion.storeType ∧
        p.grossProfit = p.totalRevenue - p.estimatedCogs ∧
        p.grossMargin = (if 0 < p.totalRevenue then p.grossProfit / p.totalRevenue * 100 else 0) ∧
        p.netProfitEstimate = p.grossProfit * (7 / 10) :=
  ⟨by decide, (analyze_financials_spec dfZero mAmt cfgFashion nowA none (by decide)).2.1⟩

end Ecom
